import Mathlib

/-!
Shallow embedding of the self-healing locator core of the repository:
`src/libraries/AILocatorLibrary.py` (smart-locator generation and locator
strength scoring) and `src/libraries/SelfHealingLibrary.py` (the healing
engine: cache lookup, original-locator attempt, fallback strategy chain,
healing cache persistence and healing history).

Strings are modelled as `List Char`; machine integers of the scorer as `Int`.
The Selenium driver is an external collaborator and is modelled as a pair of
functions giving the outcome of `find_element` / `find_elements` calls.
-/

/-- The single-quote character, used when building selector strings. -/
def squote : Char := Char.ofNat 39

/-- `isPrefixL p l` : `p` is a prefix of `l` (Python `str.startswith`). -/
def isPrefixL : List Char → List Char → Bool
  | [], _ => true
  | _ :: _, [] => false
  | a :: as, b :: bs => a = b && isPrefixL as bs

/-- `containsL big sub` : `sub` occurs as a contiguous substring of `big`
(Python `sub in big`). -/
def containsL : List Char → List Char → Bool
  | [], sub => sub.isEmpty
  | c :: rest, sub => isPrefixL sub (c :: rest) || containsL rest sub

/-- Tail of the index-pattern scanner: after at least one digit has been read,
accept a closing `]` or further digits. -/
def closeTail : List Char → Bool
  | [] => false
  | c :: rest => c = ']' || (c.isDigit && closeTail rest)

/-- One or more digits followed by `]` at the head of the list. -/
def digitsClose : List Char → Bool
  | [] => false
  | c :: rest => c.isDigit && closeTail rest

/-- `re.search(r'\[\d+\]', l)` of the scorer: some position of `l` starts a
substring `[`, one or more digits, `]`. -/
def hasIndexPattern : List Char → Bool
  | [] => false
  | c :: rest => (c = '[' && digitsClose rest) || hasIndexPattern rest

/-- Result record of `AILocatorLibrary.validate_locator_strength`. -/
structure ScoreReport where
  score : Int
  strength : List Char
  issues : List (List Char)
  recommendations : List (List Char)
deriving DecidableEq

/-- Bonus part of the scorer: the `if/elif` chain on best-practice patterns
(`data-testid`/`data-test` +30, `id=` prefix +25, `name=` prefix +15). -/
def bonusScore (l : List Char) : Int :=
  if containsL l ("data-testid".data) || containsL l ("data-test".data) then 30
  else if isPrefixL ("id=".data) l then 25
  else if isPrefixL ("name=".data) l then 15
  else 0

/-- Gate of the absolute-XPath penalty: `'//*' in locator and '[' in locator
and '@' not in locator`. -/
def penAbs (l : List Char) : Bool :=
  containsL l ("//*".data) && containsL l ("[".data) && !containsL l ("@".data)

/-- Gate of the class-based penalty: `'contains(@class' in locator`. -/
def penClass (l : List Char) : Bool :=
  containsL l ("contains(@class".data)

/-- Gate of the index-based penalty: `re.search(r'\[\d+\]', locator)`. -/
def penIdx (l : List Char) : Bool :=
  hasIndexPattern l

/-- The score accumulated by `validate_locator_strength` before the final
clamp: base 50, plus the bonus chain, minus the penalties −20/−10/−15. -/
def preScore (l : List Char) : Int :=
  50 + bonusScore l
    - ((if penAbs l then 20 else 0) + (if penClass l then 10 else 0)
        + (if penIdx l then 15 else 0))

/-- `AILocatorLibrary.validate_locator_strength`: score clamped to [0,100],
strength thresholds 75/50, and the issue/recommendation lists emitted by the
penalty rules in source order. -/
def validate_locator_strength (l : List Char) : ScoreReport :=
  let score := max 0 (min 100 (preScore l))
  { score := score
  , strength :=
      if score ≥ 75 then "Strong".data
      else if score ≥ 50 then "Medium".data
      else "Weak".data
  , issues :=
      (if penAbs l then ["Absolute XPath detected - very fragile".data] else [])
        ++ (if penClass l then ["Class-based locator may be unstable".data] else [])
        ++ (if penIdx l then ["Index-based selector detected".data] else [])
  , recommendations :=
      (if penAbs l then ["Use relative XPath or CSS selectors".data] else [])
        ++ (if penClass l then ["Consider using data-testid or ID".data] else [])
        ++ (if penIdx l then ["Use unique attributes instead".data] else []) }

example : validate_locator_strength ("//div/span[2]".data) =
    { score := 35, strength := "Weak".data
    , issues := ["Index-based selector detected".data]
    , recommendations := ["Use unique attributes instead".data] } := by decide

example : (validate_locator_strength ("id=submit".data)).score = 75 := by decide

/-- An element descriptor (`element_info` dict): attribute name → value,
modelled as an association list whose key order mirrors Python dict insertion
order; lookup is by key. -/
abbrev Desc : Type := List (List Char × List Char)

/-- Key lookup in an association list: the first binding wins (Python dict
lookup, where keys are unique). -/
def lookupA : List (List Char × List Char) → List Char → Option (List Char)
  | [], _ => none
  | p :: rest, k => if p.1 = k then some p.2 else lookupA rest k

/-- Ladder rule 1: `id` present and truthy (non-empty) → `id=<id>`. -/
def rule_id (info : Desc) : List (List Char) :=
  match lookupA info ("id".data) with
  | some v => if v = [] then [] else ["id=".data ++ v]
  | none => []

/-- Ladder rule 2: `data-testid` present → `css=[data-testid='<v>']`. -/
def rule_testid (info : Desc) : List (List Char) :=
  match lookupA info ("data-testid".data) with
  | some v => ["css=[data-testid=".data ++ squote :: v ++ [squote, ']']]
  | none => []

/-- Ladder rule 3: `name` present and truthy → `name=<name>`. -/
def rule_name (info : Desc) : List (List Char) :=
  match lookupA info ("name".data) with
  | some v => if v = [] then [] else ["name=".data ++ v]
  | none => []

/-- Ladder rule 4: `class` and `type` both present →
`css=<tag or button>.<class>[type='<type>']`. -/
def rule_composite (info : Desc) : List (List Char) :=
  match lookupA info ("class".data), lookupA info ("type".data) with
  | some c, some t =>
      ["css=".data ++ ((lookupA info ("tag".data)).getD ("button".data))
        ++ '.' :: c ++ "[type=".data ++ squote :: t ++ [squote, ']']]
  | _, _ => []

/-- Ladder rule 5: `text` present → `xpath=//*[contains(text(), '<text>')]`. -/
def rule_text (info : Desc) : List (List Char) :=
  match lookupA info ("text".data) with
  | some v => ["xpath=//*[contains(text(), ".data ++ squote :: v ++ [squote, ')', ']']]
  | none => []

/-- Ladder rule 6: `aria-label` present → `css=[aria-label='<v>']`. -/
def rule_aria (info : Desc) : List (List Char) :=
  match lookupA info ("aria-label".data) with
  | some v => ["css=[aria-label=".data ++ squote :: v ++ [squote, ']']]
  | none => []

/-- `AILocatorLibrary.generate_smart_locator`: the candidates appended by the
six ladder rules, in source order. -/
def generate_smart_locator (info : Desc) : List (List Char) :=
  rule_id info ++ rule_testid info ++ rule_name info ++ rule_composite info
    ++ rule_text info ++ rule_aria info

example :
    generate_smart_locator [("id".data, "btn".data)] = ["id=btn".data] := by
  decide

example :
    generate_smart_locator [("id".data, "a".data), ("name".data, "n".data)] =
      ["id=a".data, "name=n".data] := by
  decide

/-- Selenium `By` strategies that `_find_element` dispatches to. -/
inductive By where
  | id
  | name
  | xpath
  | css
  | cls
  | tag
  | link
  | partialLink
deriving DecidableEq

/-- An element handle returned by the driver, carrying exactly the attributes
that `_get_element_locator` reads: `get_attribute('id')`,
`get_attribute('name')` (empty list = absent/falsy) and `tag_name`. -/
structure Elem where
  attr_id : List Char
  attr_name : List Char
  tag_name : List Char
deriving DecidableEq

/-- Outcome of a single `driver.find_element` call: an element, a
`NoSuchElementException`, or any other exception. -/
inductive FindResult where
  | found (e : Elem)
  | notFound
  | error
deriving DecidableEq

/-- The external Selenium driver collaborator: `find` is the outcome of
`find_element(by, value)`; `findAll` is `find_elements(by, value)`, with
`none` modelling a raised exception. -/
structure Driver where
  find : By → List Char → FindResult
  findAll : By → List Char → Option (List Elem)

/-- `by_mapping` of `_find_element`: strategy-name string → `By`, as written
in the source. -/
def byLookup (s : List Char) : Option By :=
  if s = "id".data then some By.id
  else if s = "name".data then some By.name
  else if s = "xpath".data then some By.xpath
  else if s = "css".data then some By.css
  else if s = "class".data then some By.cls
  else if s = "tag".data then some By.tag
  else if s = "link".data then some By.link
  else if s = "partial_link".data then some By.partialLink
  else none

/-- Python `locator.split('=', 1)`: the part before the first `=` and the
rest after it (callers only use it when `=` occurs in the string). -/
def splitEq : List Char → List Char × List Char
  | [] => ([], [])
  | c :: rest =>
      if c = '=' then ([], rest)
      else ((splitEq rest).1.cons c, (splitEq rest).2)

/-- Locator parsing of `_find_element`: split on the first `=`, lowercase the
prefix and look it up in `by_mapping` with default `By.XPATH`; a string
without `=` is an xpath value. -/
def findDispatch (l : List Char) : By × List Char :=
  if '=' ∈ l then
    ((byLookup ((splitEq l).1.map Char.toLower)).getD By.xpath, (splitEq l).2)
  else (By.xpath, l)

/-- `SelfHealingLibrary._find_element`: dispatch the locator string and call
the driver. -/
def find_element (d : Driver) (l : List Char) : FindResult :=
  d.find (findDispatch l).1 (findDispatch l).2

/-- `SelfHealingLibrary._get_element_locator`: prefer the `id` attribute,
else the `name` attribute, else the weak positional xpath `(tag)[1]`. -/
def get_element_locator (e : Elem) : List Char :=
  if e.attr_id ≠ [] then "id=".data ++ e.attr_id
  else if e.attr_name ≠ [] then "name=".data ++ e.attr_name
  else "xpath=(".data ++ e.tag_name ++ ")[1]".data

/-- Outcome of one healing-strategy call: an element, `None`, or a raised
exception (caught by the chain's `except` and treated as no match). -/
inductive StratOutcome where
  | found (e : Elem)
  | miss
  | error
deriving DecidableEq

/-- Text hints tried by `_heal_by_text_content`, in source order. -/
def textHints : List (List Char) :=
  ["Login".data, "Submit".data, "Search".data, "Save".data, "Cancel".data]

/-- Inner loop of `_heal_by_text_content`: try each hint's xpath, returning
the first element found; driver exceptions continue the loop. -/
def firstTextHit (d : Driver) : List (List Char) → Option Elem
  | [] => none
  | t :: rest =>
      match d.find By.xpath ("//*[contains(text(), ".data ++ squote :: t ++ [squote, ')', ']']) with
      | .found e => some e
      | _ => firstTextHit d rest

/-- `SelfHealingLibrary._heal_by_text_content`. -/
def heal_by_text_content (d : Driver) (_l : List Char) : StratOutcome :=
  match firstTextHit d textHints with
  | some e => .found e
  | none => .miss

/-- `SelfHealingLibrary._heal_by_nearby_elements`: stub, always no match. -/
def heal_by_nearby_elements (_d : Driver) (_l : List Char) : StratOutcome :=
  .miss

/-- Attribute names probed by `_heal_by_attributes`, in source order. -/
def attrHints : List (List Char) :=
  ["data-testid".data, "data-test".data, "name".data, "type".data,
    "role".data, "aria-label".data]

/-- Inner loop of `_heal_by_attributes`: query `[attr]` by CSS and return the
first element of the first non-empty result list; exceptions and empty lists
continue the loop. -/
def firstAttrHit (d : Driver) : List (List Char) → Option Elem
  | [] => none
  | a :: rest =>
      match d.findAll By.css ('[' :: a ++ [']']) with
      | some (e :: _) => some e
      | _ => firstAttrHit d rest

/-- `SelfHealingLibrary._heal_by_attributes`. -/
def heal_by_attributes (d : Driver) (_l : List Char) : StratOutcome :=
  match firstAttrHit d attrHints with
  | some e => .found e
  | none => .miss

/-- `SelfHealingLibrary._heal_by_position`: stub, always no match. -/
def heal_by_position (_d : Driver) (_l : List Char) : StratOutcome :=
  .miss

/-- `SelfHealingLibrary._heal_by_visual_similarity`: stub, always no match. -/
def heal_by_visual_similarity (_d : Driver) (_l : List Char) : StratOutcome :=
  .miss

/-- The fixed `strategies` list of `_try_healing_strategies`, in source
order. -/
def healingStrategies : List (Driver → List Char → StratOutcome) :=
  [heal_by_text_content, heal_by_nearby_elements, heal_by_attributes,
    heal_by_position, heal_by_visual_similarity]

/-- The loop of `_try_healing_strategies` over an arbitrary strategy list:
the first strategy returning an element wins; a no-match or a raised
exception moves on to the next strategy. -/
def tryStrategies (ss : List (Driver → List Char → StratOutcome))
    (d : Driver) (l : List Char) : Option Elem :=
  match ss with
  | [] => none
  | s :: rest =>
      match s d l with
      | .found e => some e
      | _ => tryStrategies rest d l

/-- `SelfHealingLibrary._try_healing_strategies`. -/
def try_healing_strategies (d : Driver) (l : List Char) : Option Elem :=
  tryStrategies healingStrategies d l

/-- One record of `healing_history`: the `healing_info` dict appended on a
successful heal. `timestamp` (from `time.strftime`) and `healing_time` (the
rounded elapsed time) are inputs of the model, time being external. -/
structure HealingEvent where
  original_locator : List Char
  healed_locator : List Char
  timestamp : List Char
  healing_time : Int
deriving DecidableEq

/-- Python dict assignment `m[k] = v` on an association list: overwrite the
existing binding, or append a new one. -/
def assocPut : List (List Char × List Char) → List Char → List Char →
    List (List Char × List Char)
  | [], k, v => [(k, v)]
  | p :: rest, k, v =>
      if p.1 = k then (k, v) :: rest else p :: assocPut rest k v

/-- Mutable state of a `SelfHealingLibrary` instance: the in-memory
`healing_cache`, the `healing_history`, and the trace of cache snapshots
written to the cache file by `save_cache` (modelling persistence). -/
structure EngineState where
  healing_cache : List (List Char × List Char)
  healing_history : List HealingEvent
  saved : List (List (List Char × List Char))
deriving DecidableEq

/-- How a `find_element_with_healing` call ends: an element is returned, a
`NoSuchElementException` with the exhaustion message is raised, or a
non-"not found" driver exception from the original-locator attempt
propagates. -/
inductive Outcome where
  | resolved (e : Elem)
  | exhausted (msg : List Char)
  | propagatedError
deriving DecidableEq

/-- The exhaustion message: `"Could not find element even with
self-healing: " + original_locator`. -/
def exhaustMsg (original : List Char) : List Char :=
  "Could not find element even with self-healing: ".data ++ original

/-- The cache branch of `find_element_with_healing`: when the locator has a
cached healed locator, try it; an element is returned, and any exception
(the bare `except`) or not-found falls through as `none`. -/
def cacheAttempt (d : Driver) (cache : List (List Char × List Char))
    (l : List Char) : Option Elem :=
  match lookupA cache l with
  | none => none
  | some cached =>
      match find_element d cached with
      | .found e => some e
      | _ => none

/-- `SelfHealingLibrary.find_element_with_healing`: cache attempt, then the
original locator (`NoSuchElementException` falls through, other errors
propagate), then the fallback chain; a fallback success derives the healed
locator, writes it to the cache, saves the cache and appends a history
event; exhaustion raises with the original locator in the message. -/
def find_element_with_healing (d : Driver) (st : EngineState)
    (locator : List Char) (ts : List Char) (dur : Int) :
    Outcome × EngineState :=
  match cacheAttempt d st.healing_cache locator with
  | some e => (.resolved e, st)
  | none =>
      match find_element d locator with
      | .found e => (.resolved e, st)
      | .error => (.propagatedError, st)
      | .notFound =>
          match try_healing_strategies d locator with
          | some e =>
              (.resolved e,
                { healing_cache := assocPut st.healing_cache locator (get_element_locator e)
                , healing_history := st.healing_history
                    ++ [{ original_locator := locator
                        , healed_locator := get_element_locator e
                        , timestamp := ts
                        , healing_time := dur }]
                , saved := st.saved
                    ++ [assocPut st.healing_cache locator (get_element_locator e)] })
          | none => (.exhausted (exhaustMsg locator), st)

/-- The persistent cache store as seen by `load_cache`: the file may be
absent, present but malformed (`json.load` raises), or a valid mapping. -/
inductive CacheStore where
  | missing
  | malformed
  | valid (m : List (List Char × List Char))
deriving DecidableEq

/-- The body of `load_cache` before its `except` clause: a missing file is
skipped by the `os.path.exists` guard (cache keeps its initial `{}`),
malformed content raises, valid content loads. -/
def load_cache_attempt : CacheStore → Except (List Char) (List (List Char × List Char))
  | .missing => .ok []
  | .malformed => .error ("Expecting value".data)
  | .valid m => .ok m

/-- `SelfHealingLibrary.load_cache`: catches any exception of the attempt and
logs a warning; returns the resulting in-memory cache and the warnings
emitted. Total — no exception reaches the caller. -/
def load_cache (s : CacheStore) : List (List Char × List Char) × List (List Char) :=
  match load_cache_attempt s with
  | .ok c => (c, [])
  | .error e => ([], ["Could not load healing cache: ".data ++ e])

lemma lookupA_assocPut_self (m : List (List Char × List Char))
    (k v : List Char) : lookupA (assocPut m k v) k = some v := by
  induction m with
  | nil => simp [assocPut, lookupA]
  | cons p rest ih =>
      by_cases hp : p.1 = k
      · simp [assocPut, hp, lookupA]
      · simp [assocPut, hp, lookupA, ih]

lemma splitEq_append (p v : List Char) (hp : '=' ∉ p) :
    splitEq (p ++ '=' :: v) = (p, v) := by
  induction p with
  | nil => simp [splitEq]
  | cons c cs ih =>
      have hc : c ≠ '=' := fun h => hp (h ▸ List.mem_cons_self c cs)
      have hcs : '=' ∉ cs := fun h => hp (List.mem_cons_of_mem c h)
      simp [splitEq, hc, ih hcs]

lemma lookupA_perm {l1 l2 : List (List Char × List Char)} (h : l1.Perm l2)
    (nd : (l1.map Prod.fst).Nodup) (k : List Char) :
    lookupA l1 k = lookupA l2 k := by
  induction h with
  | nil => rfl
  | cons x h ih =>
      simp only [List.map_cons, List.nodup_cons] at nd
      by_cases hx : x.1 = k
      · simp [lookupA, hx]
      · simp [lookupA, hx, ih nd.2]
  | swap x y l =>
      simp only [List.map_cons, List.nodup_cons, List.mem_cons] at nd
      have hxy : y.1 ≠ x.1 := fun hyx => nd.1 (Or.inl hyx)
      by_cases h1 : y.1 = k <;> by_cases h2 : x.1 = k
      · exact absurd (h1.trans h2.symm) hxy
      · simp [lookupA, h1, h2]
      · simp [lookupA, h1, h2]
      · simp [lookupA, h1, h2]
  | trans h1 _h2 ih1 ih2 =>
      rw [ih1 nd, ih2 ((h1.map Prod.fst).nodup nd)]

lemma byLookup_key_props (s : List Char) (b : By) (h : byLookup s = some b) :
    '=' ∉ s ∧ s.map Char.toLower = s := by
  unfold byLookup at h
  split_ifs at h with h1 h2 h3 h4 h5 h6 h7 h8
  · subst h1; exact (by decide)
  · subst h2; exact (by decide)
  · subst h3; exact (by decide)
  · subst h4; exact (by decide)
  · subst h5; exact (by decide)
  · subst h6; exact (by decide)
  · subst h7; exact (by decide)
  · subst h8; exact (by decide)

lemma findDispatch_key (k v : List Char) (b : By) (hk : '=' ∉ k)
    (hlow : k.map Char.toLower = k) (hbk : byLookup k = some b) :
    findDispatch (k ++ '=' :: v) = (b, v) := by
  unfold findDispatch
  rw [if_pos (List.mem_append_right _ (List.mem_cons_self _ _)),
    splitEq_append k v hk, hlow, hbk]
  rfl

/-- A concrete element handle with an `id` attribute, used as test input. -/
def elemA : Elem :=
  { attr_id := "newbtn".data, attr_name := [], tag_name := "button".data }

/-- A driver on whose page only the locator value `h0` matches. -/
def driverCacheHit : Driver :=
  { find := fun _ v => if v = "h0".data then .found elemA else .notFound
  , findAll := fun _ _ => some [] }

/-- Engine state holding the prior heal `o0 → h0` and empty history. -/
def stCacheHit : EngineState :=
  { healing_cache := [("o0".data, "h0".data)], healing_history := [], saved := [] }

/-- A driver that misses the locator value `o1` and matches anything else. -/
def driverHeal : Driver :=
  { find := fun _ v => if v = "o1".data then .notFound else .found elemA
  , findAll := fun _ _ => some [] }

/-- The empty engine state. -/
def st0 : EngineState :=
  { healing_cache := [], healing_history := [], saved := [] }

/-- A driver on whose page nothing matches. -/
def driverMiss : Driver :=
  { find := fun _ _ => .notFound, findAll := fun _ _ => some [] }

/-- A driver whose every call raises a non-"not found" exception. -/
def driverErr : Driver :=
  { find := fun _ _ => .error, findAll := fun _ _ => none }

/-- A fallback strategy that reports no match. -/
def stubNo : Driver → List Char → StratOutcome := fun _ _ => .miss

/-- A fallback strategy that raises an internal error. -/
def stubErr : Driver → List Char → StratOutcome := fun _ _ => .error

/-- A fallback strategy that finds `elemA`. -/
def stubHit : Driver → List Char → StratOutcome := fun _ _ => .found elemA

/-- A driver for exercising the strategy chain with the stub strategies. -/
def driverIdle : Driver :=
  { find := fun _ _ => .notFound, findAll := fun _ _ => some [] }

/-- Claim C2: when the cached healed locator for the requested original
locator successfully resolves, `find_element_with_healing` returns that
element and the engine state — healing cache, healing history and persisted
snapshots — is exactly the state before the call. -/
theorem C2_cached_success_frame (d : Driver) (st : EngineState)
    (l ts : List Char) (dur : Int) (cached : List Char) (e : Elem)
    (h1 : lookupA st.healing_cache l = some cached)
    (h2 : find_element d cached = .found e) :
    find_element_with_healing d st l ts dur = (.resolved e, st) := by
  unfold find_element_with_healing cacheAttempt
  simp only [h1, h2]

theorem C2_cached_success_frame_witness :
    find_element_with_healing driverCacheHit stCacheHit ("o0".data) ("t0".data) 0
      = (.resolved elemA, stCacheHit) :=
  C2_cached_success_frame driverCacheHit stCacheHit ("o0".data) ("t0".data) 0
    ("h0".data) elemA (by decide) (by decide)

/-- Claim C1 counterexample: this call succeeds via the cached healed locator
(the original locator `o0` itself misses), yet the engine returns the state
unchanged — no cache write, no persisted snapshot, no history event — so a
non-original-path success does not always commit a heal. -/
theorem C1_cex_cached_success_commits_nothing :
    find_element_with_healing driverCacheHit stCacheHit ("o0".data) ("t0".data) 0
        = (.resolved elemA, stCacheHit)
      ∧ stCacheHit.healing_history = []
      ∧ stCacheHit.saved = []
      ∧ find_element driverCacheHit ("o0".data) = .notFound := by
  decide

/-- Claim C1 (amended): for every resolution call that succeeds via a
fallback strategy, the engine derives a canonical locator for the found
element, writes original → healed into the healing cache, persists the new
cache snapshot, and appends the healing event to the history; success via
the cached healed locator commits nothing. -/
theorem C1_fallback_success_commits_heal (d : Driver) (st : EngineState)
    (l ts : List Char) (dur : Int) (e : Elem)
    (h1 : cacheAttempt d st.healing_cache l = none)
    (h2 : find_element d l = .notFound)
    (h3 : try_healing_strategies d l = some e) :
    (find_element_with_healing d st l ts dur).1 = .resolved e
      ∧ (find_element_with_healing d st l ts dur).2.healing_cache
          = assocPut st.healing_cache l (get_element_locator e)
      ∧ lookupA (find_element_with_healing d st l ts dur).2.healing_cache l
          = some (get_element_locator e)
      ∧ (find_element_with_healing d st l ts dur).2.saved
          = st.saved ++ [(find_element_with_healing d st l ts dur).2.healing_cache]
      ∧ (find_element_with_healing d st l ts dur).2.healing_history
          = st.healing_history
              ++ [{ original_locator := l
                  , healed_locator := get_element_locator e
                  , timestamp := ts
                  , healing_time := dur }] := by
  have hrun : find_element_with_healing d st l ts dur =
      (.resolved e,
        { healing_cache := assocPut st.healing_cache l (get_element_locator e)
        , healing_history := st.healing_history
            ++ [{ original_locator := l
                , healed_locator := get_element_locator e
                , timestamp := ts
                , healing_time := dur }]
        , saved := st.saved
            ++ [assocPut st.healing_cache l (get_element_locator e)] }) := by
    unfold find_element_with_healing
    simp only [h1, h2, h3]
  rw [hrun]
  exact ⟨rfl, rfl, lookupA_assocPut_self _ _ _, rfl, rfl⟩

theorem C1_fallback_success_commits_heal_witness :
    (find_element_with_healing driverHeal st0 ("o1".data) ("t0".data) 1).1
        = .resolved elemA
      ∧ (find_element_with_healing driverHeal st0 ("o1".data) ("t0".data) 1).2.healing_cache
          = assocPut st0.healing_cache ("o1".data) (get_element_locator elemA)
      ∧ lookupA (find_element_with_healing driverHeal st0 ("o1".data) ("t0".data) 1).2.healing_cache
            ("o1".data)
          = some (get_element_locator elemA)
      ∧ (find_element_with_healing driverHeal st0 ("o1".data) ("t0".data) 1).2.saved
          = st0.saved
              ++ [(find_element_with_healing driverHeal st0 ("o1".data) ("t0".data) 1).2.healing_cache]
      ∧ (find_element_with_healing driverHeal st0 ("o1".data) ("t0".data) 1).2.healing_history
          = st0.healing_history
              ++ [{ original_locator := ("o1".data)
                  , healed_locator := get_element_locator elemA
                  , timestamp := ("t0".data)
                  , healing_time := 1 }] :=
  C1_fallback_success_commits_heal driverHeal st0 ("o1".data) ("t0".data) 1 elemA
    (by decide) (by decide) (by decide)

/-- Claim C4: when the cache attempt yields nothing (miss, or the cached
locator does not resolve), the original locator is not found, and the
fallback chain reports no match, the call raises the exhaustion error whose
message carries the original locator, and the engine state is exactly the
state before the call. -/
theorem C4_exhaustion_frame (d : Driver) (st : EngineState)
    (l ts : List Char) (dur : Int)
    (h1 : lookupA st.healing_cache l = none ∨
      ∃ cached, lookupA st.healing_cache l = some cached ∧
        ∀ e, find_element d cached ≠ .found e)
    (h2 : find_element d l = .notFound)
    (h3 : try_healing_strategies d l = none) :
    find_element_with_healing d st l ts dur = (.exhausted (exhaustMsg l), st)
      ∧ exhaustMsg l
          = "Could not find element even with self-healing: ".data ++ l := by
  have hca : cacheAttempt d st.healing_cache l = none := by
    rcases h1 with h | ⟨cached, hc, hne⟩
    · unfold cacheAttempt
      simp only [h]
    · unfold cacheAttempt
      cases hfe : find_element d cached with
      | found e => exact absurd hfe (hne e)
      | notFound => simp only [hc, hfe]
      | error => simp only [hc, hfe]
  refine ⟨?_, rfl⟩
  unfold find_element_with_healing
  simp only [hca, h2, h3]

theorem C4_exhaustion_frame_witness :
    find_element_with_healing driverMiss st0 ("o2".data) ("t0".data) 0
        = (.exhausted (exhaustMsg ("o2".data)), st0)
      ∧ exhaustMsg ("o2".data)
          = "Could not find element even with self-healing: ".data ++ "o2".data :=
  C4_exhaustion_frame driverMiss st0 ("o2".data) ("t0".data) 0
    (Or.inl rfl) (by decide) (by decide)

/-- Claim C10: the cached-locator attempt swallows every outcome of the
cached locator other than a found element — a non-"not found" driver error
as well as not-found — and falls through; by contrast, a non-"not found"
error on the original-locator attempt propagates to the caller. -/
theorem C10_cached_swallow_original_propagate :
    (∀ (d : Driver) (cache : List (List Char × List Char)) (l cached : List Char),
        lookupA cache l = some cached → find_element d cached = .error →
        cacheAttempt d cache l = none)
      ∧ (∀ (d : Driver) (cache : List (List Char × List Char)) (l cached : List Char),
        lookupA cache l = some cached → find_element d cached = .notFound →
        cacheAttempt d cache l = none)
      ∧ (∀ (d : Driver) (st : EngineState) (l ts : List Char) (dur : Int),
        cacheAttempt d st.healing_cache l = none →
        find_element d l = .error →
        find_element_with_healing d st l ts dur = (.propagatedError, st)) := by
  refine ⟨?_, ?_, ?_⟩
  · intro d cache l cached h1 h2
    unfold cacheAttempt
    simp only [h1, h2]
  · intro d cache l cached h1 h2
    unfold cacheAttempt
    simp only [h1, h2]
  · intro d st l ts dur h1 h2
    unfold find_element_with_healing
    simp only [h1, h2]

theorem C10_cached_swallow_original_propagate_witness :
    cacheAttempt driverErr stCacheHit.healing_cache ("o0".data) = none
      ∧ find_element_with_healing driverErr stCacheHit ("o0".data) ("t0".data) 0
          = (.propagatedError, stCacheHit) := by
  constructor
  · exact C10_cached_swallow_original_propagate.1 driverErr
      stCacheHit.healing_cache ("o0".data) ("h0".data) (by decide) rfl
  · exact C10_cached_swallow_original_propagate.2.2 driverErr
      stCacheHit ("o0".data) ("t0".data) 0 (by decide) rfl

/-- Claim C3 counterexample: scoring `//div/span[2]` does not fire the
absolute-XPath penalty — the string contains no `//*` substring, so the gate
`'//*' in locator` is false — and the only issue emitted is the
index-penalty one; the score is 50 − 15 = 35, not 50 − 20 − 15. -/
theorem C3_cex_absolute_penalty_not_fired :
    (validate_locator_strength ("//div/span[2]".data)).issues
        = ["Index-based selector detected".data]
      ∧ (validate_locator_strength ("//div/span[2]".data)).score = 35
      ∧ penAbs ("//div/span[2]".data) = false := by
  decide

/-- Claim C3 (amended): scoring `//div/span[2]` fires only the
bracketed-integer-index penalty (−15, with its issue and recommendation);
the absolute-XPath penalty does not fire because the string lacks the `//*`
substring its gate requires; the resulting score is 35, within [0,100]. -/
theorem C3_amended_only_index_penalty :
    validate_locator_strength ("//div/span[2]".data)
        = { score := 35
          , strength := "Weak".data
          , issues := ["Index-based selector detected".data]
          , recommendations := ["Use unique attributes instead".data] }
      ∧ penIdx ("//div/span[2]".data) = true
      ∧ penAbs ("//div/span[2]".data) = false
      ∧ 0 ≤ (validate_locator_strength ("//div/span[2]".data)).score
      ∧ (validate_locator_strength ("//div/span[2]".data)).score ≤ 100 := by
  decide

/-- Claim C9: for every locator string the score accumulated before the
final clamp already lies within [5,80] — the bonus chain adds at most 30 and
the penalties subtract at most 45 from the base 50 — so the clamp to [0,100]
never changes the value and the returned score equals the pre-clamp score. -/
theorem C9_preclamp_bounds (l : List Char) :
    5 ≤ preScore l ∧ preScore l ≤ 80
      ∧ (validate_locator_strength l).score = preScore l := by
  have h1 : 5 ≤ preScore l ∧ preScore l ≤ 80 := by
    unfold preScore bonusScore
    split_ifs <;> omega
  refine ⟨h1.1, h1.2, ?_⟩
  show max 0 (min 100 (preScore l)) = preScore l
  rw [min_eq_right (le_trans h1.2 (by norm_num)),
    max_eq_right (le_trans (by norm_num) h1.1)]

theorem C9_preclamp_bounds_witness :
    5 ≤ preScore ("//div/span[2]".data) ∧ preScore ("//div/span[2]".data) ≤ 80
      ∧ (validate_locator_strength ("//div/span[2]".data)).score
          = preScore ("//div/span[2]".data) :=
  C9_preclamp_bounds ("//div/span[2]".data)

/-- Claim C5: the fallback chain is exactly the five strategies text-content,
nearby-elements, attributes, position, visual-similarity in that order; for
any chain, the first strategy returning an element determines the result
whatever the later strategies are, and a strategy that raises an internal
error is skipped exactly like a no-match, the chain continuing. -/
theorem C5_strategy_chain_contract :
    healingStrategies = [heal_by_text_content, heal_by_nearby_elements,
        heal_by_attributes, heal_by_position, heal_by_visual_similarity]
      ∧ (∀ (pre : List (Driver → List Char → StratOutcome)) s rest
          (d : Driver) (l : List Char) (e : Elem),
          (∀ s0 ∈ pre, ∀ e0, s0 d l ≠ .found e0) → s d l = .found e →
          tryStrategies (pre ++ s :: rest) d l = some e)
      ∧ (∀ s (rest : List (Driver → List Char → StratOutcome))
          (d : Driver) (l : List Char), s d l = .error →
          tryStrategies (s :: rest) d l = tryStrategies rest d l) := by
  refine ⟨rfl, ?_, ?_⟩
  · intro pre s rest d l e hpre hs
    induction pre with
    | nil => simp [tryStrategies, hs]
    | cons s0 pre ih =>
        have h0 := hpre s0 (List.mem_cons_self _ _)
        cases hs0 : s0 d l with
        | found e0 => exact absurd hs0 (h0 e0)
        | miss =>
            simp only [List.cons_append, tryStrategies, hs0]
            exact ih fun s1 hs1 => hpre s1 (List.mem_cons_of_mem _ hs1)
        | error =>
            simp only [List.cons_append, tryStrategies, hs0]
            exact ih fun s1 hs1 => hpre s1 (List.mem_cons_of_mem _ hs1)
  · intro s rest d l hs
    simp only [tryStrategies, hs]

theorem C5_strategy_chain_contract_witness :
    tryStrategies ([stubNo] ++ stubHit :: [stubErr]) driverIdle [] = some elemA
      ∧ tryStrategies (stubErr :: [stubHit]) driverIdle []
          = tryStrategies [stubHit] driverIdle [] := by
  constructor
  · exact C5_strategy_chain_contract.2.1 [stubNo] stubHit [stubErr]
      driverIdle [] elemA
      (by
        intro s0 hs0 e0
        have hs0' : s0 = stubNo := by simpa using hs0
        subst hs0'
        simp [stubNo])
      rfl
  · exact C5_strategy_chain_contract.2.2 stubErr [stubHit] driverIdle [] rfl

/-- Claim C6: `generate_smart_locator` emits the candidates of the six
ladder rules in the fixed source order; its result depends only on key
lookup, so it is invariant under permuting the descriptor's insertion order
(for descriptors with unique keys); and a descriptor whose only relevant
binding is a non-empty `id` yields exactly the single candidate `id=<id>`. -/
theorem C6_generate_ladder_and_id_only :
    (∀ info : Desc, generate_smart_locator info
        = rule_id info ++ rule_testid info ++ rule_name info
            ++ rule_composite info ++ rule_text info ++ rule_aria info)
      ∧ (∀ info1 info2 : Desc, info1.Perm info2 →
          (info1.map Prod.fst).Nodup →
          generate_smart_locator info1 = generate_smart_locator info2)
      ∧ (∀ (info : Desc) (v : List Char),
          lookupA info ("id".data) = some v → v ≠ [] →
          lookupA info ("data-testid".data) = none →
          lookupA info ("name".data) = none →
          lookupA info ("class".data) = none →
          lookupA info ("text".data) = none →
          lookupA info ("aria-label".data) = none →
          generate_smart_locator info = ["id=".data ++ v]) := by
  refine ⟨fun _ => rfl, ?_, ?_⟩
  · intro info1 info2 h nd
    have e1 := lookupA_perm h nd ("id".data)
    have e2 := lookupA_perm h nd ("data-testid".data)
    have e3 := lookupA_perm h nd ("name".data)
    have e4 := lookupA_perm h nd ("class".data)
    have e5 := lookupA_perm h nd ("type".data)
    have e6 := lookupA_perm h nd ("tag".data)
    have e7 := lookupA_perm h nd ("text".data)
    have e8 := lookupA_perm h nd ("aria-label".data)
    simp only [generate_smart_locator, rule_id, rule_testid, rule_name,
      rule_composite, rule_text, rule_aria, e1, e2, e3, e4, e5, e6, e7, e8]
  · intro info v h1 hv h2 h3 h4 h5 h6
    simp only [generate_smart_locator, rule_id, rule_testid, rule_name,
      rule_composite, rule_text, rule_aria, h1, h2, h3, h4, h5, h6]
    simp [hv]

theorem C6_generate_ladder_and_id_only_witness :
    generate_smart_locator [("name".data, "n".data), ("id".data, "a".data)]
        = generate_smart_locator [("id".data, "a".data), ("name".data, "n".data)]
      ∧ generate_smart_locator [("id".data, "btn".data)]
          = ["id=".data ++ "btn".data] := by
  constructor
  · exact C6_generate_ladder_and_id_only.2.1 _ _ (by decide) (by decide)
  · exact C6_generate_ladder_and_id_only.2.2 [("id".data, "btn".data)]
      ("btn".data) (by decide) (by decide) (by decide) (by decide) (by decide)
      (by decide) (by decide)

/-- Claim C7 counterexample: loading from a missing cache file leaves the
cache empty and raises nothing, but surfaces no warning either — the
`os.path.exists` guard skips the load silently, so "a load failure surfaces
a warning" fails on the missing-file input. -/
theorem C7_cex_missing_store_no_warning :
    load_cache CacheStore.missing = ([], []) := by
  rfl

/-- Claim C7 (amended): a load failure never raises an exception to the
caller and leaves the in-memory cache empty; malformed content surfaces a
warning, while a missing file is skipped silently with no warning. -/
theorem C7_amended_load_failures :
    load_cache CacheStore.missing = ([], [])
      ∧ (load_cache CacheStore.malformed).1 = []
      ∧ (load_cache CacheStore.malformed).2
          = ["Could not load healing cache: Expecting value".data] := by
  refine ⟨rfl, rfl, ?_⟩
  decide

/-- Claim C8: locator dispatch is case-insensitive in the strategy prefix —
for every value `v` and prefix `p` (no `=` inside) whose lowercasing is a
known strategy, `p=v` and `lowercase(p)=v` dispatch to the same `By`
strategy with the same value. -/
theorem C8_dispatch_case_insensitive (p v : List Char) (b : By)
    (hp : '=' ∉ p) (hb : byLookup (p.map Char.toLower) = some b) :
    findDispatch (p ++ '=' :: v) = (b, v)
      ∧ findDispatch (p.map Char.toLower ++ '=' :: v) = (b, v) := by
  constructor
  · unfold findDispatch
    rw [if_pos (List.mem_append_right _ (List.mem_cons_self _ _)),
      splitEq_append p v hp, hb]
    rfl
  · obtain ⟨hk, hlow⟩ := byLookup_key_props _ b hb
    exact findDispatch_key (p.map Char.toLower) v b hk hlow hb

theorem C8_dispatch_case_insensitive_witness :
    findDispatch ("ID".data ++ '=' :: "x".data) = (By.id, "x".data)
      ∧ findDispatch ("ID".data.map Char.toLower ++ '=' :: "x".data)
          = (By.id, "x".data) :=
  C8_dispatch_case_insensitive ("ID".data) ("x".data) By.id
    (by decide) (by decide)





